import Mathlib

/-!
Shallow embedding of the drone-simulation engine of
`src/drone_simulation.py`: geometry predicates, the obstacle registry,
the motion integrator (`Drone.update`), the trail recorder, the trail
filter (`Drone.clip_path_to_obstacles`), the delivery sequencer
(`UrbanEnvironment.next_delivery`) and the per-tick driver
(`UrbanEnvironment.update`).  Coordinates are idealised as real numbers;
rendering, colors and UI are out of scope (the spec excludes them).
-/

/-- Axis-aligned rectangle in pygame's representation: origin `(x, y)`,
width `w`, height `h` (the source stores buildings as `pygame.Rect`). -/
@[ext]
structure Rect where
  x : ℝ
  y : ℝ
  w : ℝ
  h : ℝ

/-- Left edge coordinate, as pygame's `Rect.left`. -/
def Rect.left (r : Rect) : ℝ := r.x

/-- Right edge coordinate, as pygame's `Rect.right = x + w`. -/
def Rect.right (r : Rect) : ℝ := r.x + r.w

/-- Top edge coordinate, as pygame's `Rect.top`. -/
def Rect.top (r : Rect) : ℝ := r.y

/-- Bottom edge coordinate, as pygame's `Rect.bottom = y + h`. -/
def Rect.bottom (r : Rect) : ℝ := r.y + r.h

/-- Modelled from pygame's documented `Rect.collidepoint` semantics, the
rectangle-containment predicate the source calls at lines 137 and 314
(`building.rect.collidepoint(x, y)`; pygame is a third-party dependency,
so its predicate is not in `src/`): a point is inside the rectangle iff
`x <= px < x + w` and `y <= py < y + h`; pygame documents that a point
along the right or bottom edge is not considered inside. -/
def Rect.collidepoint (r : Rect) (px py : ℝ) : Prop :=
  r.x ≤ px ∧ px < r.x + r.w ∧ r.y ≤ py ∧ py < r.y + r.h

/-- Written from the spec's words in section 4.1 for comparison with the
source's predicate: containment in the closed box
`[left, right] × [top, bottom]`, all four boundary edges inside. -/
def rectangleContainsSpec (r : Rect) (px py : ℝ) : Prop :=
  r.left ≤ px ∧ px ≤ r.right ∧ r.top ≤ py ∧ py ≤ r.bottom

/-- Building obstacle (`Building` in the source); the `color` and visual
`height` fields only affect drawing and are omitted. -/
@[ext]
structure Building where
  rect : Rect

/-- Circular restricted-airspace zone (`NoFlyZone` in the source); the
`color` field only affects drawing and is omitted. -/
@[ext]
structure NoFlyZone where
  center : ℝ × ℝ
  radius : ℝ

/-- Circle containment from `NoFlyZone.contains_point` (source lines
61-63): Euclidean distance from the point to the center is at most the
radius. -/
def NoFlyZone.contains_point (z : NoFlyZone) (px py : ℝ) : Prop :=
  Real.sqrt ((px - z.center.1) ^ 2 + (py - z.center.2) ^ 2) ≤ z.radius

/-- The obstacle registry's blocked-point query: some building rectangle
or some no-fly zone contains the point.  The source evaluates this as
two short-circuiting loops with an `in_obstacle` flag (lines 134-144 and
313-319); the short-circuit has no observable effect, so the query is a
plain disjunction. -/
def blockedPt (bs : List Building) (zs : List NoFlyZone) (p : ℝ × ℝ) : Prop :=
  (∃ b ∈ bs, b.rect.collidepoint p.1 p.2) ∨ ∃ z ∈ zs, z.contains_point p.1 p.2

/-- Drone state from `Drone.__init__` (source lines 80-89); the visual
`size` field only affects drawing and is omitted. -/
@[ext]
structure Drone where
  x : ℝ
  y : ℝ
  target_x : ℝ
  target_y : ℝ
  speed : ℝ
  path : List (ℝ × ℝ)
  clipped_path : List (ℝ × ℝ)
  is_moving : Bool
  battery : ℝ
  carrying_package : Bool

/-- Initial drone state from `Drone.__init__`: position and target at
`start_pos`, speed 3, empty trail, not moving, battery 100, carrying a
package. -/
def Drone.init (start : ℝ × ℝ) : Drone :=
  { x := start.1, y := start.2, target_x := start.1, target_y := start.2,
    speed := 3, path := [], clipped_path := [], is_moving := false,
    battery := 100, carrying_package := true }

/-- `Drone.set_target` (source lines 91-93): store the target and set the
moving flag. -/
def Drone.set_target (d : Drone) (tx ty : ℝ) : Drone :=
  { d with target_x := tx, target_y := ty, is_moving := true }

/-- Distance from the drone to its target, as computed in `Drone.update`
(source line 102): `sqrt(dx**2 + dy**2)`. -/
noncomputable def Drone.distance (d : Drone) : ℝ :=
  Real.sqrt ((d.target_x - d.x) ^ 2 + (d.target_y - d.y) ^ 2)

/-- Trail append with the bound enforcement of source lines 110-112:
append the point, then if the length exceeds 100 evict the oldest entry
(`path.pop(0)`). -/
def trailPush (l : List (ℝ × ℝ)) (p : ℝ × ℝ) : List (ℝ × ℝ) :=
  if 100 < (l ++ [p]).length then (l ++ [p]).tail else l ++ [p]

open Classical in
/-- The motion integrator `Drone.update` (source lines 95-121).  If not
moving, do nothing.  Otherwise, if the distance to the target exceeds
the speed, advance by `speed` along the normalized direction, record the
new position on the trail, and consume battery (`0.01` idealised as
`1/100`); else snap to the target, stop, and clear the payload flag if
it was set. -/
noncomputable def Drone.update (d : Drone) : Drone :=
  if d.is_moving then
    if d.distance > d.speed then
      { d with
        x := d.x + (d.target_x - d.x) / d.distance * d.speed,
        y := d.y + (d.target_y - d.y) / d.distance * d.speed,
        path := trailPush d.path
          (d.x + (d.target_x - d.x) / d.distance * d.speed,
           d.y + (d.target_y - d.y) / d.distance * d.speed),
        battery := d.battery - 1 / 100 }
    else
      { d with
        x := d.target_x, y := d.target_y, is_moving := false,
        carrying_package := if d.carrying_package then false else d.carrying_package }
  else d

open Classical in
/-- The scan loop of `clip_path_to_obstacles` (source lines 131-155):
walk the trail keeping an accumulator `safe` of the current run of
unblocked points; a blocked point flushes a nonempty run into `clipped`;
the final nonempty run is flushed at the end. -/
noncomputable def clipScan (bs : List Building) (zs : List NoFlyZone) :
    List (ℝ × ℝ) → List (ℝ × ℝ) → List (ℝ × ℝ) → List (ℝ × ℝ)
  | [], clipped, safe => if safe = [] then clipped else clipped ++ safe
  | p :: rest, clipped, safe =>
      if blockedPt bs zs p then
        if safe = [] then clipScan bs zs rest clipped []
        else clipScan bs zs rest (clipped ++ safe) []
      else clipScan bs zs rest clipped (safe ++ [p])

open Classical in
/-- Order-preserving removal of blocked points; the closed form the scan
loop computes. -/
noncomputable def filterSafe (bs : List Building) (zs : List NoFlyZone) :
    List (ℝ × ℝ) → List (ℝ × ℝ)
  | [] => []
  | p :: rest =>
      if blockedPt bs zs p then filterSafe bs zs rest
      else p :: filterSafe bs zs rest

open Classical in
/-- The trail filter `Drone.clip_path_to_obstacles` (source lines
123-155): if the trail has fewer than two points the method returns at
once, leaving `clipped_path` as it was; otherwise `clipped_path` is
rebuilt by the scan loop from the whole trail. -/
noncomputable def Drone.clip_path_to_obstacles (d : Drone)
    (bs : List Building) (zs : List NoFlyZone) : Drone :=
  if d.path.length < 2 then d
  else { d with clipped_path := clipScan bs zs d.path [] [] }

/-- Navigation metrics (`NavigationMetrics` in the source); the
`total_processing_time` field accumulates wall-clock measurements from
`pygame.time.get_ticks()` and is outside the model. -/
@[ext]
structure Metrics where
  paths_planned : ℕ
  obstacles_avoided : ℕ
  paths_clipped : ℕ
  successful_deliveries : ℕ

/-- Metric updates after the per-tick filter run (source lines 353-358):
count ticks with a nonempty filtered trail, and ticks where the trail
and filtered-trail lengths differ. -/
def Metrics.afterClip (m : Metrics) (d : Drone) : Metrics :=
  let m1 := if 0 < d.clipped_path.length
    then { m with paths_clipped := m.paths_clipped + 1 } else m
  if d.path.length ≠ d.clipped_path.length
    then { m1 with obstacles_avoided := m1.obstacles_avoided + 1 } else m1

/-- Simulation environment state (`UrbanEnvironment` in the source);
the pygame screen, clock and fonts are rendering-only and omitted. -/
@[ext]
structure Env where
  buildings : List Building
  no_fly_zones : List NoFlyZone
  delivery_points : List (ℝ × ℝ)
  drone : Drone
  metrics : Metrics
  current_delivery : ℕ
  simulation_time : ℝ
  is_paused : Bool

/-- Initial environment from `UrbanEnvironment.__init__` (source lines
181-200).  Building placement is randomized by an external generator, so
the building list is a configuration input (spec section 4.2); the
no-fly zones and delivery points are the fixed lists of
`_generate_no_fly_zones` and `_generate_delivery_points`. -/
def Env.init (bs : List Building) : Env :=
  { buildings := bs,
    no_fly_zones :=
      [{ center := (400, 300), radius := 80 },
       { center := (700, 500), radius := 60 },
       { center := (900, 200), radius := 70 }],
    delivery_points := [(100, 100), (1100, 100), (1100, 700), (100, 700), (600, 400)],
    drone := Drone.init (100, 100),
    metrics := { paths_planned := 0, obstacles_avoided := 0,
                 paths_clipped := 0, successful_deliveries := 0 },
    current_delivery := 0,
    simulation_time := 0,
    is_paused := false }

open Classical in
/-- `UrbanEnvironment.handle_click` (source lines 308-323): if the click
position is inside some building or some no-fly zone, return at once
with no effect; otherwise set the drone's target there and count one
planned path. -/
noncomputable def Env.handle_click (e : Env) (px py : ℝ) : Env :=
  if ∃ b ∈ e.buildings, b.rect.collidepoint px py then e
  else if ∃ z ∈ e.no_fly_zones, z.contains_point px py then e
  else
    { e with
      drone := e.drone.set_target px py,
      metrics := { e.metrics with paths_planned := e.metrics.paths_planned + 1 } }

/-- Modelled from the spec: section 6 describes the click handler as
`setTarget(x, y) -> bool`, returning false on a blocked point and true
otherwise.  The source's `handle_click` returns no value; the boolean is
the spec's rendering of whether the handler's early return was not
taken, i.e. whether the point is unblocked. -/
def setTargetResult (e : Env) (px py : ℝ) : Prop :=
  ¬ blockedPt e.buildings e.no_fly_zones (px, py)

/-- The index stepping of `next_delivery` (source lines 327-330):
advance unless already at the last waypoint, in which case return to the
depot at index 0. -/
def Env.nextIdx (e : Env) : ℕ :=
  if e.current_delivery < e.delivery_points.length - 1
    then e.current_delivery + 1 else 0

/-- The delivery sequencer `UrbanEnvironment.next_delivery` (source
lines 325-338): step the index, wrapping to 0 from the last entry; set
the drone's target to the new waypoint and count a planned path; on
wrapping to the depot, count a successful delivery and reload the
payload flag. -/
def Env.next_delivery (e : Env) : Env :=
  let cur := e.nextIdx
  let target := e.delivery_points.getD cur (0, 0)
  let e1 :=
    { e with
      current_delivery := cur,
      drone := e.drone.set_target target.1 target.2,
      metrics := { e.metrics with paths_planned := e.metrics.paths_planned + 1 } }
  if cur = 0 then
    { e1 with
      metrics := { e1.metrics with
        successful_deliveries := e1.metrics.successful_deliveries + 1 },
      drone := { e1.drone with carrying_package := true } }
  else e1

/-- The drone state after the motion and filter steps of one tick
(source lines 347-348). -/
noncomputable def Env.tickDrone (e : Env) : Drone :=
  (Drone.update e.drone).clip_path_to_obstacles e.buildings e.no_fly_zones

/-- The environment after the motion, filter and metric steps of one
tick, before the auto-advance check (source lines 343-358). -/
noncomputable def Env.preAdvance (e : Env) : Env :=
  { e with
    simulation_time := e.simulation_time + 1 / 60,
    drone := e.tickDrone,
    metrics := Metrics.afterClip e.metrics e.tickDrone }

open Classical in
/-- The per-tick driver `UrbanEnvironment.update` (source lines
340-366): when not paused, advance the simulation clock, run the motion
integrator and the trail filter, update the metrics, and fire the
delivery sequencer when the drone is idle, carrying a package, and
within 10 units of the current waypoint. -/
noncomputable def Env.update (e : Env) : Env :=
  if e.is_paused then e
  else if e.tickDrone.is_moving = false ∧ e.tickDrone.carrying_package = true then
    if Real.sqrt ((e.tickDrone.x - (e.delivery_points.getD e.current_delivery (0, 0)).1) ^ 2 +
        (e.tickDrone.y - (e.delivery_points.getD e.current_delivery (0, 0)).2) ^ 2) < 10
    then e.preAdvance.next_delivery
    else e.preAdvance
  else e.preAdvance

/-- Clearing the flight path (source lines 425-428, the C key): empty
both the trail and the filtered trail, leaving the rest of the drone
state alone. -/
def Env.clearPath (e : Env) : Env :=
  { e with drone := { e.drone with path := [], clipped_path := [] } }

/-- Pausing and resuming (source lines 420-421, the SPACE key). -/
def Env.togglePause (e : Env) : Env :=
  { e with is_paused := !e.is_paused }

/-- The operations the event loop (source lines 413-436) can apply to
the environment: a simulation tick, a left click, the N / C / SPACE
keys, and the R key, which rebuilds the environment with a fresh
building layout from the external generator. -/
inductive Op where
  | tick
  | click (px py : ℝ)
  | keyN
  | keyC
  | keySpace
  | reset (bs : List Building)

/-- Apply one event-loop operation. -/
noncomputable def Op.apply : Op → Env → Env
  | Op.tick, e => e.update
  | Op.click px py, e => e.handle_click px py
  | Op.keyN, e => e.next_delivery
  | Op.keyC, e => e.clearPath
  | Op.keySpace, e => e.togglePause
  | Op.reset bs, _ => Env.init bs

/-- Apply a sequence of event-loop operations in order. -/
noncomputable def applyOps (ops : List Op) (e : Env) : Env :=
  ops.foldl (fun s op => op.apply s) e

/-- Invariant relating the filtered trail to the trail: it is an
order-preserving subsequence whose points are all unblocked in the
environment's obstacle registry. -/
def pathInv (e : Env) : Prop :=
  e.drone.clipped_path.Sublist e.drone.path ∧
  ∀ q ∈ e.drone.clipped_path, ¬ blockedPt e.buildings e.no_fly_zones q

/-- The delivery scenario of spec section 8: delivery list
`[(0,0), (100,0)]`, agent idle at the depot `(0,0)` at index 0, carrying
cargo, no obstacles. -/
def scenarioEnv : Env :=
  { buildings := [],
    no_fly_zones := [],
    delivery_points := [(0, 0), (100, 0)],
    drone := Drone.init (0, 0),
    metrics := { paths_planned := 0, obstacles_avoided := 0,
                 paths_clipped := 0, successful_deliveries := 0 },
    current_delivery := 0,
    simulation_time := 0,
    is_paused := false }

/-- State description for the travelling phase of the delivery
scenario: after the first tick auto-advanced to index 1, the drone flies
along the x-axis toward `(100, 0)` at 3 units per tick, still carrying
its package, with no delivery counted. -/
def movingState (k : ℕ) (e : Env) : Prop :=
  e.is_paused = false ∧ e.drone.x = 3 * k ∧ e.drone.y = 0 ∧
  e.drone.target_x = 100 ∧ e.drone.target_y = 0 ∧ e.drone.speed = 3 ∧
  e.drone.is_moving = true ∧ e.drone.carrying_package = true ∧
  e.current_delivery = 1 ∧ e.metrics.successful_deliveries = 0 ∧
  e.delivery_points = [(0, 0), (100, 0)]

/-- Drone sent from the origin to the far-away target `(10000, 0)`; it
keeps moving for well over 150 ticks. -/
noncomputable def runDrone : Drone := Drone.set_target (Drone.init (0, 0)) 10000 0

/-- Drone of the arrival scenario in spec section 8: at `(0, 0)` with
target `(30, 0)` and speed 3. -/
noncomputable def reachDrone : Drone := Drone.set_target (Drone.init (0, 0)) 30 0

/-- Sample rectangle for concrete evaluations. -/
def rectA : Rect := { x := 50, y := 50, w := 10, h := 10 }

/-- Sample building wrapping `rectA`. -/
def buildingA : Building := { rect := rectA }

/-- Sample drone with a two-point trail away from `rectA`. -/
def droneA : Drone := { Drone.init (0, 0) with path := [(5, 0), (200, 0)] }

/-- Sample drone with a one-point trail away from `rectA`. -/
def droneB : Drone := { Drone.init (0, 0) with path := [(5, 0)] }

/-- Sample drone that is marked moving while already at its target. -/
def droneC : Drone := { Drone.init (0, 0) with is_moving := true }

/-- Environment with no obstacles at all. -/
def envFree : Env := { Env.init [] with no_fly_zones := [] }

/-- Environment whose only obstacle is the single building `buildingA`. -/
def envOne : Env := { envFree with buildings := [buildingA] }

theorem clipScan_eq (bs : List Building) (zs : List NoFlyZone) :
    ∀ (l clipped safe : List (ℝ × ℝ)),
      clipScan bs zs l clipped safe = clipped ++ safe ++ filterSafe bs zs l := by
  intro l
  induction l with
  | nil =>
      intro clipped safe
      by_cases hs : safe = [] <;> simp [clipScan, filterSafe, hs]
  | cons p rest ih =>
      intro clipped safe
      by_cases hb : blockedPt bs zs p
      · by_cases hs : safe = [] <;>
          simp [clipScan, filterSafe, hb, hs, ih, List.append_assoc]
      · simp [clipScan, filterSafe, hb, ih, List.append_assoc]

theorem filterSafe_sublist (bs : List Building) (zs : List NoFlyZone) :
    ∀ l : List (ℝ × ℝ), (filterSafe bs zs l).Sublist l := by
  intro l
  induction l with
  | nil => simp [filterSafe]
  | cons p rest ih =>
      by_cases hb : blockedPt bs zs p
      · simpa [filterSafe, hb] using ih.cons p
      · simpa [filterSafe, hb] using ih.cons₂ p

theorem filterSafe_mem (bs : List Building) (zs : List NoFlyZone) :
    ∀ l : List (ℝ × ℝ), ∀ q ∈ filterSafe bs zs l, ¬ blockedPt bs zs q := by
  intro l
  induction l with
  | nil => simp [filterSafe]
  | cons p rest ih =>
      intro q hq
      by_cases hb : blockedPt bs zs p
      · exact ih q (by simpa [filterSafe, hb] using hq)
      · rcases (by simpa [filterSafe, hb] using hq : q = p ∨ q ∈ filterSafe bs zs rest) with h | h
        · exact h ▸ hb
        · exact ih q h

theorem clip_small {d : Drone} {bs : List Building} {zs : List NoFlyZone}
    (h : d.path.length < 2) : d.clip_path_to_obstacles bs zs = d := by
  simp [Drone.clip_path_to_obstacles, h]

theorem clip_run {d : Drone} {bs : List Building} {zs : List NoFlyZone}
    (h : ¬ d.path.length < 2) :
    d.clip_path_to_obstacles bs zs =
      { d with clipped_path := filterSafe bs zs d.path } := by
  simp [Drone.clip_path_to_obstacles, h, clipScan_eq]

theorem Drone.update_idle (d : Drone) (hm : d.is_moving = false) :
    d.update = d := by
  rw [Drone.update, if_neg (by simp [hm])]

theorem Drone.distance_axis (d : Drone) (hy : d.y = d.target_y) :
    d.distance = |d.target_x - d.x| := by
  rw [Drone.distance, hy, sub_self]
  rw [show ((0:ℝ) ^ 2) = 0 by norm_num, add_zero]
  exact Real.sqrt_sq_eq_abs _

theorem Drone.update_moving_axis (d : Drone) (hm : d.is_moving = true)
    (hy : d.y = d.target_y) (hs : 0 ≤ d.speed) (h : d.speed < d.target_x - d.x) :
    d.update = { d with
      x := d.x + d.speed,
      path := trailPush d.path (d.x + d.speed, d.y),
      battery := d.battery - 1 / 100 } := by
  have hxpos : (0:ℝ) < d.target_x - d.x := lt_of_le_of_lt hs h
  have hdist : d.distance = d.target_x - d.x := by
    rw [Drone.distance_axis d hy]
    exact abs_of_pos hxpos
  have hgt : d.distance > d.speed := by rw [hdist]; exact h
  have hmove : (d.target_x - d.x) / d.distance * d.speed = d.speed := by
    rw [hdist, div_self (ne_of_gt hxpos), one_mul]
  have hymove : (d.target_y - d.y) / d.distance * d.speed = 0 := by
    rw [hy, sub_self, zero_div, zero_mul]
  rw [Drone.update, if_pos hm, if_pos hgt, hmove, hymove, add_zero]

theorem Drone.update_arrive (d : Drone) (hm : d.is_moving = true)
    (hle : ¬ d.distance > d.speed) :
    d.update = { d with
      x := d.target_x, y := d.target_y, is_moving := false,
      carrying_package := false } := by
  have hcarry : (if d.carrying_package = true then false else d.carrying_package) = false := by
    cases d.carrying_package <;> simp
  rw [Drone.update, if_pos hm, if_neg hle, hcarry]

theorem Drone.update_clipped (d : Drone) :
    (d.update).clipped_path = d.clipped_path := by
  rw [Drone.update]
  split
  · split <;> rfl
  · rfl

theorem Drone.update_path_cases (d : Drone) :
    (d.update).path = d.path ∨ ∃ q, (d.update).path = trailPush d.path q := by
  rw [Drone.update]
  split
  · split
    · right; exact ⟨_, rfl⟩
    · left; rfl
  · left; rfl

theorem trailPush_length (l : List (ℝ × ℝ)) (p : ℝ × ℝ) (h : l.length ≤ 100) :
    (trailPush l p).length = min (l.length + 1) 100 := by
  rw [trailPush]
  by_cases h1 : 100 < (l ++ [p]).length
  · rw [if_pos h1]
    simp only [List.length_tail, List.length_append, List.length_singleton] at h1 ⊢
    omega
  · rw [if_neg h1]
    simp only [List.length_append, List.length_singleton] at h1 ⊢
    omega

theorem trailPush_le (l : List (ℝ × ℝ)) (p : ℝ × ℝ) (h : l.length ≤ 100) :
    (trailPush l p).length ≤ 100 := by
  rw [trailPush_length l p h]; omega

theorem Drone.iterate_axis_facts (d : Drone) (hm : d.is_moving = true)
    (hy : d.y = d.target_y) (hsp : 0 < d.speed) (hp : d.path.length ≤ 100) :
    ∀ n : ℕ, (n : ℝ) * d.speed < d.target_x - d.x →
      (Drone.update^[n] d).x = d.x + n * d.speed ∧
      (Drone.update^[n] d).y = d.y ∧
      (Drone.update^[n] d).target_x = d.target_x ∧
      (Drone.update^[n] d).target_y = d.target_y ∧
      (Drone.update^[n] d).speed = d.speed ∧
      (Drone.update^[n] d).is_moving = true ∧
      (Drone.update^[n] d).carrying_package = d.carrying_package ∧
      (Drone.update^[n] d).path.length = min (d.path.length + n) 100 := by
  intro n
  induction n with
  | zero => intro hroom; simp [hm, hy, hp]
  | succ n ih =>
      intro hroom
      have hroom' : (n : ℝ) * d.speed < d.target_x - d.x := by
        have : (n : ℝ) * d.speed < ((n + 1 : ℕ) : ℝ) * d.speed := by
          push_cast
          nlinarith
        linarith
      obtain ⟨hx, hyn, htx, hty, hsn, hmn, hcn, hln⟩ := ih hroom'
      have hstep : d.speed < (Drone.update^[n] d).target_x - (Drone.update^[n] d).x := by
        rw [htx, hx]
        push_cast at hroom
        nlinarith
      have hyeq : (Drone.update^[n] d).y = (Drone.update^[n] d).target_y := by
        rw [hyn, hty, hy]
      have hup := Drone.update_moving_axis (Drone.update^[n] d) hmn hyeq
        (by rw [hsn]; exact hsp.le) (by rw [hsn]; exact hstep)
      rw [Function.iterate_succ_apply', hup]
      refine ⟨?_, ?_, ?_, ?_, ?_, ?_, ?_, ?_⟩
      · simp only [hx, hsn]
        push_cast
        ring
      · exact hyn
      · exact htx
      · exact hty
      · exact hsn
      · exact hmn
      · exact hcn
      · simp only []
        rw [trailPush_length _ _ (by rw [hln]; omega), hln]
        omega

theorem clip_x (d : Drone) (bs : List Building) (zs : List NoFlyZone) :
    (d.clip_path_to_obstacles bs zs).x = d.x := by
  rw [Drone.clip_path_to_obstacles]; split <;> rfl

theorem clip_y (d : Drone) (bs : List Building) (zs : List NoFlyZone) :
    (d.clip_path_to_obstacles bs zs).y = d.y := by
  rw [Drone.clip_path_to_obstacles]; split <;> rfl

theorem clip_target_x (d : Drone) (bs : List Building) (zs : List NoFlyZone) :
    (d.clip_path_to_obstacles bs zs).target_x = d.target_x := by
  rw [Drone.clip_path_to_obstacles]; split <;> rfl

theorem clip_target_y (d : Drone) (bs : List Building) (zs : List NoFlyZone) :
    (d.clip_path_to_obstacles bs zs).target_y = d.target_y := by
  rw [Drone.clip_path_to_obstacles]; split <;> rfl

theorem clip_speed (d : Drone) (bs : List Building) (zs : List NoFlyZone) :
    (d.clip_path_to_obstacles bs zs).speed = d.speed := by
  rw [Drone.clip_path_to_obstacles]; split <;> rfl

theorem clip_moving (d : Drone) (bs : List Building) (zs : List NoFlyZone) :
    (d.clip_path_to_obstacles bs zs).is_moving = d.is_moving := by
  rw [Drone.clip_path_to_obstacles]; split <;> rfl

theorem clip_carrying (d : Drone) (bs : List Building) (zs : List NoFlyZone) :
    (d.clip_path_to_obstacles bs zs).carrying_package = d.carrying_package := by
  rw [Drone.clip_path_to_obstacles]; split <;> rfl

theorem clip_battery (d : Drone) (bs : List Building) (zs : List NoFlyZone) :
    (d.clip_path_to_obstacles bs zs).battery = d.battery := by
  rw [Drone.clip_path_to_obstacles]; split <;> rfl

theorem clip_path (d : Drone) (bs : List Building) (zs : List NoFlyZone) :
    (d.clip_path_to_obstacles bs zs).path = d.path := by
  rw [Drone.clip_path_to_obstacles]; split <;> rfl

theorem Metrics.afterClip_planned (m : Metrics) (d : Drone) :
    (Metrics.afterClip m d).paths_planned = m.paths_planned := by
  simp only [Metrics.afterClip]
  split <;> split <;> rfl

theorem Metrics.afterClip_deliveries (m : Metrics) (d : Drone) :
    (Metrics.afterClip m d).successful_deliveries = m.successful_deliveries := by
  simp only [Metrics.afterClip]
  split <;> split <;> rfl

theorem Env.next_delivery_eq (e : Env) :
    e.next_delivery =
      { e with
        current_delivery := e.nextIdx,
        drone := { e.drone with
          target_x := (e.delivery_points.getD e.nextIdx (0, 0)).1,
          target_y := (e.delivery_points.getD e.nextIdx (0, 0)).2,
          is_moving := true,
          carrying_package :=
            if e.nextIdx = 0 then true else e.drone.carrying_package },
        metrics := { e.metrics with
          paths_planned := e.metrics.paths_planned + 1,
          successful_deliveries :=
            if e.nextIdx = 0 then e.metrics.successful_deliveries + 1
            else e.metrics.successful_deliveries } } := by
  simp only [Env.next_delivery, Drone.set_target]
  by_cases h : e.nextIdx = 0 <;> simp [h]

theorem Env.preAdvance_drone (e : Env) : (e.preAdvance).drone = e.tickDrone := rfl

theorem Env.preAdvance_fields (e : Env) :
    (e.preAdvance).buildings = e.buildings ∧
    (e.preAdvance).no_fly_zones = e.no_fly_zones ∧
    (e.preAdvance).delivery_points = e.delivery_points ∧
    (e.preAdvance).current_delivery = e.current_delivery ∧
    (e.preAdvance).is_paused = e.is_paused ∧
    (e.preAdvance).metrics.paths_planned = e.metrics.paths_planned ∧
    (e.preAdvance).metrics.successful_deliveries = e.metrics.successful_deliveries := by
  refine ⟨rfl, rfl, rfl, rfl, rfl, ?_, ?_⟩
  · exact Metrics.afterClip_planned e.metrics e.tickDrone
  · exact Metrics.afterClip_deliveries e.metrics e.tickDrone

theorem Env.update_advance (e : Env) (hp : e.is_paused = false)
    (hm : e.drone.is_moving = false) (hc : e.drone.carrying_package = true)
    (hd : Real.sqrt ((e.drone.x - (e.delivery_points.getD e.current_delivery (0, 0)).1) ^ 2 +
        (e.drone.y - (e.delivery_points.getD e.current_delivery (0, 0)).2) ^ 2) < 10) :
    Env.update e = Env.next_delivery (Env.preAdvance e) := by
  have hdu : Drone.update e.drone = e.drone := Drone.update_idle e.drone hm
  have h1 : e.tickDrone.is_moving = false := by
    rw [Env.tickDrone, hdu, clip_moving]; exact hm
  have h2 : e.tickDrone.carrying_package = true := by
    rw [Env.tickDrone, hdu, clip_carrying]; exact hc
  have hx : e.tickDrone.x = e.drone.x := by rw [Env.tickDrone, hdu, clip_x]
  have hy : e.tickDrone.y = e.drone.y := by rw [Env.tickDrone, hdu, clip_y]
  rw [Env.update, if_neg (by simp [hp]), if_pos ⟨h1, h2⟩,
    if_pos (by rw [hx, hy]; exact hd)]

theorem Env.update_idle_empty (e : Env) (hp : e.is_paused = false)
    (hm : e.drone.is_moving = false) (hc : e.drone.carrying_package = false) :
    Env.update e = Env.preAdvance e := by
  have hdu : Drone.update e.drone = e.drone := Drone.update_idle e.drone hm
  have h2 : e.tickDrone.carrying_package = false := by
    rw [Env.tickDrone, hdu, clip_carrying]; exact hc
  rw [Env.update, if_neg (by simp [hp]), if_neg (by simp [h2])]

theorem Env.update_moving (e : Env) (hp : e.is_paused = false)
    (hm : e.tickDrone.is_moving = true) :
    Env.update e = Env.preAdvance e := by
  rw [Env.update, if_neg (by simp [hp]), if_neg (by simp [hm])]

/-- Claim C4 counterexample: the point `(10, 5)` lies on the right edge
of the rectangle `[0,10] × [0,10]`, so the spec's inclusive-boundary
predicate holds there, but the engine's containment predicate (pygame's
`collidepoint`) does not: the right edge is outside. -/
theorem rect_boundary_counterexample :
    rectangleContainsSpec { x := 0, y := 0, w := 10, h := 10 } 10 5 ∧
    ¬ Rect.collidepoint { x := 0, y := 0, w := 10, h := 10 } 10 5 := by
  constructor
  · refine ⟨?_, ?_, ?_, ?_⟩ <;>
      norm_num [rectangleContainsSpec, Rect.left, Rect.right, Rect.top, Rect.bottom]
  · rintro ⟨_, h2, _, _⟩
    norm_num at h2

/-- Claim C4 (amended): the rectangle-containment predicate used by the
engine returns true iff `rect.left <= x < rect.right` and
`rect.top <= y < rect.bottom`; the left and top edges are inside, the
right and bottom edges are outside. -/
theorem collidepoint_half_open (r : Rect) (px py : ℝ) :
    r.collidepoint px py ↔
      r.left ≤ px ∧ px < r.right ∧ r.top ≤ py ∧ py < r.bottom :=
  Iff.rfl

/-- Claim C5: a click on a point that the obstacle registry blocks
returns early, leaving the whole environment (agent state and target
included) unchanged, with the spec's boolean result false; a click on an
unblocked point sets the drone's target there, marks it moving, counts a
planned path, and has boolean result true. -/
theorem set_target_blocked_check (e : Env) (px py : ℝ) :
    (blockedPt e.buildings e.no_fly_zones (px, py) →
      e.handle_click px py = e ∧ ¬ setTargetResult e px py) ∧
    (¬ blockedPt e.buildings e.no_fly_zones (px, py) →
      e.handle_click px py =
        { e with
          drone := e.drone.set_target px py,
          metrics := { e.metrics with paths_planned := e.metrics.paths_planned + 1 } } ∧
      setTargetResult e px py) := by
  constructor
  · intro hb
    refine ⟨?_, fun hn => hn hb⟩
    by_cases h1 : ∃ b ∈ e.buildings, b.rect.collidepoint px py
    · rw [Env.handle_click, if_pos h1]
    · rcases hb with h | h
      · exact absurd h h1
      · rw [Env.handle_click, if_neg h1, if_pos h]
  · intro hb
    have h1 : ¬ ∃ b ∈ e.buildings, b.rect.collidepoint px py := fun h => hb (Or.inl h)
    have h2 : ¬ ∃ z ∈ e.no_fly_zones, z.contains_point px py := fun h => hb (Or.inr h)
    exact ⟨by rw [Env.handle_click, if_neg h1, if_neg h2], hb⟩

/-- Witness for claim C5: in the single-building environment, clicking
inside the building at `(55, 55)` changes nothing, while clicking the
free point `(5, 5)` retargets the drone there. -/
theorem set_target_blocked_check_witness :
    envOne.handle_click 55 55 = envOne ∧
    (envOne.handle_click 5 5).drone.target_x = 5 := by
  have hbl : blockedPt envOne.buildings envOne.no_fly_zones (55, 55) := by
    refine Or.inl ⟨buildingA, ?_, ?_⟩
    · simp [envOne, envFree, Env.init]
    · refine ⟨?_, ?_, ?_, ?_⟩ <;> norm_num [buildingA, rectA]
  have hfr : ¬ blockedPt envOne.buildings envOne.no_fly_zones (5, 5) := by
    rintro (⟨b, hb, hcol⟩ | ⟨z, hz, hcz⟩)
    · simp only [envOne, envFree, Env.init, List.mem_singleton] at hb
      subst hb
      rcases hcol with ⟨h1, _, _, _⟩
      norm_num [buildingA, rectA] at h1
    · simp [envOne, envFree, Env.init] at hz
  refine ⟨((set_target_blocked_check envOne 55 55).1 hbl).1, ?_⟩
  rw [((set_target_blocked_check envOne 5 5).2 hfr).1]
  rfl

/-- Claim C7 counterexample: with a one-point trail whose single point
`(5, 0)` is unblocked, the trail filter still leaves the filtered trail
empty (length 0, not 1), because the `len(path) < 2` guard returns
before any membership test. -/
theorem single_point_trail_counterexample :
    ¬ blockedPt [buildingA] [] (5, 0) ∧
    (droneB.clip_path_to_obstacles [buildingA] []).clipped_path.length = 0 := by
  constructor
  · rintro (⟨b, hb, hcol⟩ | ⟨z, hz, hcz⟩)
    · simp only [List.mem_singleton] at hb
      subst hb
      rcases hcol with ⟨h1, _, _, _⟩
      norm_num [buildingA, rectA] at h1
    · simp at hz
  · rw [clip_small (by simp [droneB])]
    simp [droneB, Drone.init]

/-- Claim C7 (amended): running the trail filter on a trail of fewer
than two points (empty or a single point, blocked or not) returns
immediately without evaluating obstacle membership and leaves the whole
drone state, the previous filtered trail included, unchanged; since the
filtered trail is empty whenever the trail has never held two points,
an empty trail keeps an empty filtered trail and a one-point trail
yields a filtered trail of length 0 even when its point is unblocked. -/
theorem clip_short_trail_noop (d : Drone) (bs : List Building)
    (zs : List NoFlyZone) (h : d.path.length < 2) :
    d.clip_path_to_obstacles bs zs = d :=
  clip_small h

/-- Witness for claim C7: the one-point-trail drone is below the length
guard, and filtering it is a no-op. -/
theorem clip_short_trail_noop_witness :
    droneB.path.length < 2 ∧
    droneB.clip_path_to_obstacles [buildingA] [] = droneB :=
  ⟨by simp [droneB], clip_short_trail_noop droneB [buildingA] [] (by simp [droneB])⟩

/-- Claim C8: when the agent is moving with its target equal to its
position (zero-length delta), the update takes the arrival branch —
position unchanged, state Idle, payload cleared — because the
distance-greater-than-speed guard fails for a positive speed, so the
normalize step that divides by the distance is never evaluated. -/
theorem zero_distance_no_div (d : Drone) (hm : d.is_moving = true)
    (hx : d.target_x = d.x) (hy : d.target_y = d.y) (hs : 0 < d.speed) :
    d.update = { d with is_moving := false, carrying_package := false } := by
  have hdist : d.distance = 0 := by
    rw [Drone.distance, hx, hy, sub_self, sub_self]
    norm_num
  have hng : ¬ d.distance > d.speed := by
    rw [hdist]
    exact not_lt.mpr hs.le
  rw [Drone.update_arrive d hm hng, hx, hy]

/-- Witness for claim C8: the moving drone already at its target goes
idle in place with its payload cleared. -/
theorem zero_distance_no_div_witness :
    droneC.is_moving = true ∧
    Drone.update droneC = { droneC with is_moving := false, carrying_package := false } :=
  ⟨by simp [droneC],
    zero_distance_no_div droneC (by simp [droneC]) (by simp [droneC, Drone.init])
      (by simp [droneC, Drone.init]) (by norm_num [droneC, Drone.init])⟩

/-- Claim C9: clicking an unblocked point equal to the agent's own
position marks it moving, and the next motion update leaves position,
trail and battery unchanged, returns the agent to Idle, and clears the
payload flag — cargo is discarded without travel. -/
theorem click_own_position (e : Env) (px py : ℝ)
    (hb : ¬ blockedPt e.buildings e.no_fly_zones (px, py))
    (hx : e.drone.x = px) (hy : e.drone.y = py) (hs : 0 ≤ e.drone.speed) :
    (e.handle_click px py).drone.is_moving = true ∧
    Drone.update (e.handle_click px py).drone =
      { (e.handle_click px py).drone with
        is_moving := false, carrying_package := false } := by
  have h1 : ¬ ∃ b ∈ e.buildings, b.rect.collidepoint px py := fun h => hb (Or.inl h)
  have h2 : ¬ ∃ z ∈ e.no_fly_zones, z.contains_point px py := fun h => hb (Or.inr h)
  have hclick : e.handle_click px py =
      { e with
        drone := e.drone.set_target px py,
        metrics := { e.metrics with paths_planned := e.metrics.paths_planned + 1 } } := by
    rw [Env.handle_click, if_neg h1, if_neg h2]
  rw [hclick]
  refine ⟨rfl, ?_⟩
  have hm : (e.drone.set_target px py).is_moving = true := rfl
  have hdist : (e.drone.set_target px py).distance = 0 := by
    rw [Drone.distance]
    simp [Drone.set_target, hx, hy]
  have hng : ¬ (e.drone.set_target px py).distance > (e.drone.set_target px py).speed := by
    rw [hdist]
    simp [Drone.set_target]
    exact hs
  rw [Drone.update_arrive _ hm hng]
  simp [Drone.set_target, hx, hy]

/-- Witness for claim C9: in the obstacle-free environment, clicking the
drone's own position `(100, 100)` makes it moving, and one update later
it is idle in place with the payload discarded. -/
theorem click_own_position_witness :
    ¬ blockedPt envFree.buildings envFree.no_fly_zones (100, 100) ∧
    (envFree.handle_click 100 100).drone.is_moving = true ∧
    Drone.update (envFree.handle_click 100 100).drone =
      { (envFree.handle_click 100 100).drone with
        is_moving := false, carrying_package := false } := by
  have hb : ¬ blockedPt envFree.buildings envFree.no_fly_zones (100, 100) := by
    simp [envFree, Env.init, blockedPt]
  have h := click_own_position envFree 100 100 hb
    (by simp [envFree, Env.init, Drone.init]) (by simp [envFree, Env.init, Drone.init])
    (by norm_num [envFree, Env.init, Drone.init])
  exact ⟨hb, h.1, h.2⟩

theorem trailPush_short {l : List (ℝ × ℝ)} {p : ℝ × ℝ}
    (h : (trailPush l p).length < 2) : l = [] := by
  rw [trailPush] at h
  by_cases h1 : 100 < (l ++ [p]).length
  · rw [if_pos h1] at h
    simp only [List.length_tail, List.length_append, List.length_singleton] at h h1
    omega
  · rw [if_neg h1] at h
    simp only [List.length_append, List.length_singleton] at h
    exact List.eq_nil_of_length_eq_zero (by omega)

theorem pathInv_tickDrone (e : Env) (h : pathInv e) :
    (e.tickDrone).clipped_path.Sublist (e.tickDrone).path ∧
    ∀ q ∈ (e.tickDrone).clipped_path, ¬ blockedPt e.buildings e.no_fly_zones q := by
  by_cases h2 : (Drone.update e.drone).path.length < 2
  · rw [Env.tickDrone, clip_small h2]
    have hcl : (Drone.update e.drone).clipped_path = e.drone.clipped_path :=
      Drone.update_clipped e.drone
    constructor
    · rcases Drone.update_path_cases e.drone with hp | ⟨q, hp⟩
      · rw [hcl, hp]; exact h.1
      · have hnil : e.drone.path = [] := trailPush_short (hp ▸ h2)
        have : e.drone.clipped_path = [] :=
          List.sublist_nil.mp (hnil ▸ h.1)
        rw [hcl, this]
        exact List.nil_sublist _
    · intro q hq
      exact h.2 q (hcl ▸ hq)
  · rw [Env.tickDrone, clip_run h2]
    exact ⟨filterSafe_sublist _ _ _, filterSafe_mem _ _ _⟩

theorem pathInv_init (bs : List Building) : pathInv (Env.init bs) := by
  constructor
  · simp [Env.init, Drone.init]
  · simp [Env.init, Drone.init]

theorem pathInv_update (e : Env) (h : pathInv e) : pathInv (Env.update e) := by
  by_cases hp : e.is_paused = true
  · rw [Env.update, if_pos hp]
    exact h
  · have htick := pathInv_tickDrone e h
    rw [Env.update, if_neg hp]
    split
    · split
      · rw [Env.next_delivery_eq]
        exact ⟨htick.1, htick.2⟩
      · exact ⟨htick.1, htick.2⟩
    · exact ⟨htick.1, htick.2⟩

theorem pathInv_op (op : Op) (e : Env) (h : pathInv e) : pathInv (op.apply e) := by
  cases op with
  | tick => exact pathInv_update e h
  | click px py =>
      show pathInv (e.handle_click px py)
      rw [Env.handle_click]
      split
      · exact h
      · split
        · exact h
        · exact ⟨h.1, h.2⟩
  | keyN =>
      show pathInv e.next_delivery
      rw [Env.next_delivery_eq]
      exact ⟨h.1, h.2⟩
  | keyC =>
      constructor
      · simp [Op.apply, Env.clearPath]
      · simp [Op.apply, Env.clearPath]
  | keySpace => exact ⟨h.1, h.2⟩
  | reset bs => exact pathInv_init bs

theorem pathInv_applyOps (bs : List Building) (ops : List Op) :
    pathInv (applyOps ops (Env.init bs)) := by
  suffices h : ∀ e, pathInv e → pathInv (applyOps ops e) from h _ (pathInv_init bs)
  induction ops with
  | nil => intro e he; exact he
  | cons op rest ih => intro e he; exact ih _ (pathInv_op op e he)

theorem path_le_update (d : Drone) (h : d.path.length ≤ 100) :
    (d.update).path.length ≤ 100 := by
  rcases Drone.update_path_cases d with hp | ⟨q, hp⟩
  · rw [hp]; exact h
  · rw [hp]; exact trailPush_le _ _ h

theorem Env.update_drone_path (e : Env) :
    (Env.update e).drone.path = e.drone.path ∨
    (Env.update e).drone.path = (Drone.update e.drone).path := by
  rw [Env.update]
  split
  · left; rfl
  · split
    · split
      · right
        rw [Env.next_delivery_eq]
        simp [Env.preAdvance, Env.tickDrone, clip_path]
      · right
        simp [Env.preAdvance, Env.tickDrone, clip_path]
    · right
      simp [Env.preAdvance, Env.tickDrone, clip_path]

theorem path_le_op (op : Op) (e : Env) (h : e.drone.path.length ≤ 100) :
    (op.apply e).drone.path.length ≤ 100 := by
  cases op with
  | tick =>
      show (Env.update e).drone.path.length ≤ 100
      rcases Env.update_drone_path e with hp | hp
      · rw [hp]; exact h
      · rw [hp]; exact path_le_update e.drone h
  | click px py =>
      show (e.handle_click px py).drone.path.length ≤ 100
      rw [Env.handle_click]
      split
      · exact h
      · split
        · exact h
        · exact h
  | keyN =>
      show e.next_delivery.drone.path.length ≤ 100
      rw [Env.next_delivery_eq]
      exact h
  | keyC => simp [Op.apply, Env.clearPath]
  | keySpace => exact h
  | reset bs => simp [Op.apply, Env.init, Drone.init]

theorem path_le_applyOps (bs : List Building) (ops : List Op) :
    (applyOps ops (Env.init bs)).drone.path.length ≤ 100 := by
  suffices h : ∀ e, e.drone.path.length ≤ 100 →
      (applyOps ops e).drone.path.length ≤ 100 from
    h _ (by simp [Env.init, Drone.init])
  induction ops with
  | nil => intro e he; exact he
  | cons op rest ih => intro e he; exact ih _ (path_le_op op e he)

theorem runDrone_length : (Drone.update^[150] runDrone).path.length = 100 := by
  have h := Drone.iterate_axis_facts runDrone rfl rfl
    (by norm_num [runDrone, Drone.set_target, Drone.init])
    (by simp [runDrone, Drone.set_target, Drone.init]) 150
    (by norm_num [runDrone, Drone.set_target, Drone.init])
  have hl := h.2.2.2.2.2.2.2
  rw [hl]
  simp [runDrone, Drone.set_target, Drone.init]

/-- Claim C1: whenever the trail filter has run on the current trail
(which requires at least two points), every point of the filtered trail
is unblocked, the filtered trail is an order-preserving subsequence of
the trail, and its length is at most the trail's length; moreover the
subsequence, unblocked-points and length-bound properties hold after
every tick and every other event-loop operation from the initial
state. -/
theorem trail_filter_invariant :
    (∀ (d : Drone) (bs : List Building) (zs : List NoFlyZone),
      2 ≤ d.path.length →
      (∀ q ∈ (d.clip_path_to_obstacles bs zs).clipped_path, ¬ blockedPt bs zs q) ∧
      (d.clip_path_to_obstacles bs zs).clipped_path.Sublist
        (d.clip_path_to_obstacles bs zs).path ∧
      (d.clip_path_to_obstacles bs zs).clipped_path.length ≤
        (d.clip_path_to_obstacles bs zs).path.length) ∧
    (∀ (bs : List Building) (ops : List Op),
      pathInv (applyOps ops (Env.init bs)) ∧
      (applyOps ops (Env.init bs)).drone.clipped_path.length ≤
        (applyOps ops (Env.init bs)).drone.path.length) := by
  constructor
  · intro d bs zs h
    have h2 : ¬ d.path.length < 2 := by omega
    rw [clip_run h2]
    exact ⟨filterSafe_mem bs zs d.path, filterSafe_sublist bs zs d.path,
      (filterSafe_sublist bs zs d.path).length_le⟩
  · intro bs ops
    have h := pathInv_applyOps bs ops
    exact ⟨h, h.1.length_le⟩

/-- Witness for claim C1: the two-point-trail drone is filtered against
the single building, and the result is a subsequence of its trail. -/
theorem trail_filter_invariant_witness :
    2 ≤ droneA.path.length ∧
    (droneA.clip_path_to_obstacles [buildingA] []).clipped_path.Sublist
      (droneA.clip_path_to_obstacles [buildingA] []).path :=
  ⟨by simp [droneA],
    (trail_filter_invariant.1 droneA [buildingA] [] (by simp [droneA])).2.1⟩

/-- Claim C2: the trail length never exceeds 100 after any sequence of
event-loop operations; each moving tick appends exactly one point and
evicts the oldest once the bound is exceeded (the length becomes
`min (n + 1) 100`); and an agent that moves continuously for 150 ticks
has a trail of exactly 100 points. -/
theorem trail_bound :
    (∀ (bs : List Building) (ops : List Op),
      (applyOps ops (Env.init bs)).drone.path.length ≤ 100) ∧
    (∀ d : Drone, d.is_moving = true → d.distance > d.speed →
      d.path.length ≤ 100 →
      (d.update).path.length = min (d.path.length + 1) 100) ∧
    (Drone.update^[150] runDrone).path.length = 100 := by
  refine ⟨path_le_applyOps, ?_, runDrone_length⟩
  intro d hm hgt hle
  rw [Drone.update, if_pos hm, if_pos hgt]
  exact trailPush_length _ _ hle

/-- Witness for claim C2: one moving tick of the far-target drone grows
its empty trail to `min (0 + 1) 100 = 1` points. -/
theorem trail_bound_witness :
    runDrone.is_moving = true ∧
    (Drone.update runDrone).path.length = min (runDrone.path.length + 1) 100 := by
  have hd : runDrone.distance > runDrone.speed := by
    rw [Drone.distance_axis runDrone rfl]
    norm_num [runDrone, Drone.set_target, Drone.init]
  exact ⟨rfl, trail_bound.2.1 runDrone rfl hd
    (by simp [runDrone, Drone.set_target, Drone.init])⟩

/-- Claim C6: the agent at (0,0) with target (30,0) and speed 3 is still
moving after 9 ticks, and after exactly 10 ticks sits exactly at (30, 0)
(snapped, no floating-point residual), is Idle, and has its initially
set payload flag cleared on the arrival tick. -/
theorem reach_target_ten_ticks :
    (Drone.update^[9] reachDrone).is_moving = true ∧
    (Drone.update^[10] reachDrone).x = 30 ∧
    (Drone.update^[10] reachDrone).y = 0 ∧
    (Drone.update^[10] reachDrone).is_moving = false ∧
    (Drone.update^[10] reachDrone).carrying_package = false := by
  obtain ⟨hx, hy, htx, hty, hs, hm, hc, hl⟩ :=
    Drone.iterate_axis_facts reachDrone rfl rfl
      (by norm_num [reachDrone, Drone.set_target, Drone.init])
      (by simp [reachDrone, Drone.set_target, Drone.init]) 9
      (by norm_num [reachDrone, Drone.set_target, Drone.init])
  have hyeq : (Drone.update^[9] reachDrone).y = (Drone.update^[9] reachDrone).target_y := by
    rw [hy, hty]
    simp [reachDrone, Drone.set_target, Drone.init]
  have hng : ¬ (Drone.update^[9] reachDrone).distance >
      (Drone.update^[9] reachDrone).speed := by
    rw [Drone.distance_axis _ hyeq, htx, hx, hs]
    have h3 : reachDrone.target_x - (reachDrone.x + (9:ℕ) * reachDrone.speed) = 3 := by
      norm_num [reachDrone, Drone.set_target, Drone.init]
    rw [h3, abs_of_pos (by norm_num : (0:ℝ) < 3)]
    norm_num [reachDrone, Drone.set_target, Drone.init]
  have h10 : Drone.update^[10] reachDrone =
      Drone.update (Drone.update^[9] reachDrone) :=
    Function.iterate_succ_apply' Drone.update 9 reachDrone
  rw [h10, Drone.update_arrive _ hm hng]
  refine ⟨hm, ?_, ?_, rfl, rfl⟩
  · show (Drone.update^[9] reachDrone).target_x = 30
    rw [htx]
    norm_num [reachDrone, Drone.set_target, Drone.init]
  · show (Drone.update^[9] reachDrone).target_y = 0
    rw [hty]
    norm_num [reachDrone, Drone.set_target, Drone.init]

/-- Claim C10: from the initial environment (drone idle at the depot
waypoint, carrying a package), the very first tick auto-advances with no
external input: the delivery index becomes 1, the drone is targeted at
waypoint 1 `(1100, 100)` and marked moving, and the planned-path counter
becomes 1. -/
theorem simulation_self_start (bs : List Building) :
    (Env.update (Env.init bs)).current_delivery = 1 ∧
    (Env.update (Env.init bs)).drone.target_x = 1100 ∧
    (Env.update (Env.init bs)).drone.target_y = 100 ∧
    (Env.update (Env.init bs)).drone.is_moving = true ∧
    (Env.update (Env.init bs)).metrics.paths_planned = 1 := by
  have hdist : Real.sqrt
      (((Env.init bs).drone.x -
        ((Env.init bs).delivery_points.getD (Env.init bs).current_delivery (0, 0)).1) ^ 2 +
       ((Env.init bs).drone.y -
        ((Env.init bs).delivery_points.getD (Env.init bs).current_delivery (0, 0)).2) ^ 2) < 10 := by
    norm_num [Env.init, Drone.init, Real.sqrt_zero]
  rw [Env.update_advance (Env.init bs) rfl rfl rfl hdist, Env.next_delivery_eq]
  have hidx : (Env.init bs).preAdvance.nextIdx = 1 := by
    simp [Env.nextIdx, Env.preAdvance, Env.init]
  refine ⟨hidx, ?_, ?_, rfl, ?_⟩
  · show ((Env.init bs).preAdvance.delivery_points.getD
      (Env.init bs).preAdvance.nextIdx (0, 0)).1 = 1100
    rw [hidx]
    simp [Env.preAdvance, Env.init]
  · show ((Env.init bs).preAdvance.delivery_points.getD
      (Env.init bs).preAdvance.nextIdx (0, 0)).2 = 100
    rw [hidx]
    simp [Env.preAdvance, Env.init]
  · show (Metrics.afterClip (Env.init bs).metrics (Env.init bs).tickDrone).paths_planned + 1 = 1
    rw [Metrics.afterClip_planned]
    simp [Env.init]

theorem Env.update_no_carry (e : Env) (hp : e.is_paused = false)
    (hc : e.tickDrone.carrying_package = false) :
    Env.update e = Env.preAdvance e := by
  rw [Env.update, if_neg (by simp [hp]), if_neg (by simp [hc])]

theorem scenario_first_tick : movingState 0 (Env.update scenarioEnv) := by
  have hdist : Real.sqrt
      ((scenarioEnv.drone.x -
        (scenarioEnv.delivery_points.getD scenarioEnv.current_delivery (0, 0)).1) ^ 2 +
       (scenarioEnv.drone.y -
        (scenarioEnv.delivery_points.getD scenarioEnv.current_delivery (0, 0)).2) ^ 2) < 10 := by
    norm_num [scenarioEnv, Drone.init, Real.sqrt_zero]
  rw [Env.update_advance scenarioEnv rfl rfl rfl hdist, Env.next_delivery_eq]
  have hidx : scenarioEnv.preAdvance.nextIdx = 1 := by
    simp [Env.nextIdx, Env.preAdvance, scenarioEnv]
  have hdu : Drone.update scenarioEnv.drone = scenarioEnv.drone :=
    Drone.update_idle scenarioEnv.drone rfl
  refine ⟨rfl, ?_, ?_, ?_, ?_, ?_, rfl, ?_, hidx, ?_, rfl⟩
  · show scenarioEnv.tickDrone.x = 3 * ((0:ℕ) : ℝ)
    rw [Env.tickDrone, clip_x, hdu]
    norm_num [scenarioEnv, Drone.init]
  · show scenarioEnv.tickDrone.y = 0
    rw [Env.tickDrone, clip_y, hdu]
    norm_num [scenarioEnv, Drone.init]
  · show (scenarioEnv.preAdvance.delivery_points.getD
      scenarioEnv.preAdvance.nextIdx (0, 0)).1 = 100
    rw [hidx]
    simp [Env.preAdvance, scenarioEnv]
  · show (scenarioEnv.preAdvance.delivery_points.getD
      scenarioEnv.preAdvance.nextIdx (0, 0)).2 = 0
    rw [hidx]
    simp [Env.preAdvance, scenarioEnv]
  · show scenarioEnv.tickDrone.speed = 3
    rw [Env.tickDrone, clip_speed, hdu]
    norm_num [scenarioEnv, Drone.init]
  · show (if scenarioEnv.preAdvance.nextIdx = 0 then true
      else scenarioEnv.preAdvance.drone.carrying_package) = true
    rw [hidx]
    show scenarioEnv.tickDrone.carrying_package = true
    rw [Env.tickDrone, clip_carrying, hdu]
    rfl
  · show (if scenarioEnv.preAdvance.nextIdx = 0
      then (Metrics.afterClip scenarioEnv.metrics scenarioEnv.tickDrone).successful_deliveries + 1
      else (Metrics.afterClip scenarioEnv.metrics scenarioEnv.tickDrone).successful_deliveries) = 0
    rw [hidx]
    simp only [one_ne_zero, if_false]
    rw [Metrics.afterClip_deliveries]
    rfl

theorem movingState_step (k : ℕ) (e : Env) (h : movingState k e)
    (hroom : 3 * (k : ℝ) + 3 < 100) : movingState (k + 1) (Env.update e) := by
  obtain ⟨hp, hx, hy, htx, hty, hs, hm, hc, hcur, hdel, hpts⟩ := h
  have hyeq : e.drone.y = e.drone.target_y := by rw [hy, hty]
  have hlt : e.drone.speed < e.drone.target_x - e.drone.x := by
    rw [hs, htx, hx]
    linarith
  have hup := Drone.update_moving_axis e.drone hm hyeq (by rw [hs]; norm_num) hlt
  have htm : e.tickDrone.is_moving = true := by
    rw [Env.tickDrone, clip_moving, hup]
    exact hm
  rw [Env.update_moving e hp htm]
  refine ⟨hp, ?_, ?_, ?_, ?_, ?_, htm, ?_, hcur, ?_, hpts⟩
  · show e.tickDrone.x = 3 * ((k + 1 : ℕ) : ℝ)
    rw [Env.tickDrone, clip_x, hup]
    show e.drone.x + e.drone.speed = 3 * ((k + 1 : ℕ) : ℝ)
    rw [hx, hs]
    push_cast
    ring
  · show e.tickDrone.y = 0
    rw [Env.tickDrone, clip_y, hup]
    exact hy
  · show e.tickDrone.target_x = 100
    rw [Env.tickDrone, clip_target_x, hup]
    exact htx
  · show e.tickDrone.target_y = 0
    rw [Env.tickDrone, clip_target_y, hup]
    exact hty
  · show e.tickDrone.speed = 3
    rw [Env.tickDrone, clip_speed, hup]
    exact hs
  · show e.tickDrone.carrying_package = true
    rw [Env.tickDrone, clip_carrying, hup]
    exact hc
  · show (Metrics.afterClip e.metrics e.tickDrone).successful_deliveries = 0
    rw [Metrics.afterClip_deliveries]
    exact hdel

theorem scenario_moving : ∀ k, k ≤ 33 → movingState k (Env.update^[k + 1] scenarioEnv) := by
  intro k
  induction k with
  | zero =>
      intro _
      show movingState 0 (Env.update^[1] scenarioEnv)
      rw [Function.iterate_one]
      exact scenario_first_tick
  | succ k ih =>
      intro hk
      have hms := ih (by omega)
      have hroom : 3 * (k : ℝ) + 3 < 100 := by
        have hk32 : (k : ℝ) ≤ 32 := by exact_mod_cast (by omega : k ≤ 32)
        linarith
      have hstep := movingState_step k _ hms hroom
      show movingState (k + 1) (Env.update^[(k + 1) + 1] scenarioEnv)
      rw [Function.iterate_succ_apply']
      exact hstep

theorem scenario_after_arrival :
    (Env.update^[35] scenarioEnv).is_paused = false ∧
    (Env.update^[35] scenarioEnv).drone.x = 100 ∧
    (Env.update^[35] scenarioEnv).drone.y = 0 ∧
    (Env.update^[35] scenarioEnv).drone.is_moving = false ∧
    (Env.update^[35] scenarioEnv).drone.carrying_package = false ∧
    (Env.update^[35] scenarioEnv).current_delivery = 1 ∧
    (Env.update^[35] scenarioEnv).metrics.successful_deliveries = 0 := by
  obtain ⟨hp, hx, hy, htx, hty, hs, hm, hc, hcur, hdel, hpts⟩ := scenario_moving 33 le_rfl
  have hyeq : (Env.update^[34] scenarioEnv).drone.y =
      (Env.update^[34] scenarioEnv).drone.target_y := by rw [hy, hty]
  have hng : ¬ (Env.update^[34] scenarioEnv).drone.distance >
      (Env.update^[34] scenarioEnv).drone.speed := by
    rw [Drone.distance_axis _ hyeq, htx, hx, hs]
    have h1 : (100 : ℝ) - 3 * ((33:ℕ) : ℝ) = 1 := by norm_num
    rw [h1, abs_of_pos (by norm_num : (0:ℝ) < 1)]
    norm_num
  have hup := Drone.update_arrive (Env.update^[34] scenarioEnv).drone hm hng
  have hcarr : (Env.update^[34] scenarioEnv).tickDrone.carrying_package = false := by
    rw [Env.tickDrone, clip_carrying, hup]
  have h35 : Env.update^[35] scenarioEnv = (Env.update^[34] scenarioEnv).preAdvance := by
    rw [show (35:ℕ) = 34 + 1 from rfl, Function.iterate_succ_apply']
    exact Env.update_no_carry _ hp hcarr
  rw [h35]
  refine ⟨hp, ?_, ?_, ?_, hcarr, hcur, ?_⟩
  · show (Env.update^[34] scenarioEnv).tickDrone.x = 100
    rw [Env.tickDrone, clip_x, hup]
    exact htx
  · show (Env.update^[34] scenarioEnv).tickDrone.y = 0
    rw [Env.tickDrone, clip_y, hup]
    exact hty
  · show (Env.update^[34] scenarioEnv).tickDrone.is_moving = false
    rw [Env.tickDrone, clip_moving, hup]
  · show (Metrics.afterClip (Env.update^[34] scenarioEnv).metrics
      (Env.update^[34] scenarioEnv).tickDrone).successful_deliveries = 0
    rw [Metrics.afterClip_deliveries]
    exact hdel

theorem idle_step_facts (e : Env) (hp : e.is_paused = false)
    (hm : e.drone.is_moving = false) (hc : e.drone.carrying_package = false) :
    (Env.update e).is_paused = false ∧
    (Env.update e).drone.x = e.drone.x ∧
    (Env.update e).drone.y = e.drone.y ∧
    (Env.update e).drone.is_moving = false ∧
    (Env.update e).drone.carrying_package = false ∧
    (Env.update e).current_delivery = e.current_delivery ∧
    (Env.update e).metrics.successful_deliveries = e.metrics.successful_deliveries := by
  have hdu := Drone.update_idle e.drone hm
  have hcarr : e.tickDrone.carrying_package = false := by
    rw [Env.tickDrone, clip_carrying, hdu]
    exact hc
  rw [Env.update_no_carry e hp hcarr]
  refine ⟨hp, ?_, ?_, ?_, hcarr, rfl, ?_⟩
  · show e.tickDrone.x = e.drone.x
    rw [Env.tickDrone, clip_x, hdu]
  · show e.tickDrone.y = e.drone.y
    rw [Env.tickDrone, clip_y, hdu]
  · show e.tickDrone.is_moving = false
    rw [Env.tickDrone, clip_moving, hdu]
    exact hm
  · show (Metrics.afterClip e.metrics e.tickDrone).successful_deliveries =
      e.metrics.successful_deliveries
    rw [Metrics.afterClip_deliveries]

/-- Claim C3 counterexample: in the claimed scenario (delivery list
`[(0,0), (100,0)]`, agent starting at index 0 carrying cargo), the run
is deterministic: the first tick auto-advances to index 1 and the agent
flies to `(100, 0)`, but arriving there clears the payload flag, so the
auto-advance check never fires again — after the agent has reached
`(100, 0)` and a further tick has run the check, the index is still 1
(it never wraps to 0), the completed-delivery count is still 0, and the
payload flag is false, contradicting the claimed wrap, increment and
payload reload. -/
theorem delivery_scenario_counterexample :
    (Env.update^[36] scenarioEnv).drone.x = 100 ∧
    (Env.update^[36] scenarioEnv).drone.y = 0 ∧
    (Env.update^[36] scenarioEnv).drone.is_moving = false ∧
    (Env.update^[36] scenarioEnv).current_delivery = 1 ∧
    (Env.update^[36] scenarioEnv).metrics.successful_deliveries = 0 ∧
    (Env.update^[36] scenarioEnv).drone.carrying_package = false := by
  obtain ⟨hp, hx, hy, hm, hc, hcur, hdel⟩ := scenario_after_arrival
  obtain ⟨_, hx2, hy2, hm2, hc2, hcur2, hdel2⟩ :=
    idle_step_facts (Env.update^[35] scenarioEnv) hp hm hc
  have h36 : Env.update^[36] scenarioEnv = Env.update (Env.update^[35] scenarioEnv) := by
    rw [show (36:ℕ) = 35 + 1 from rfl, Function.iterate_succ_apply']
  rw [h36]
  exact ⟨by rw [hx2, hx], by rw [hy2, hy], hm2, by rw [hcur2, hcur],
    by rw [hdel2, hdel], hc2⟩

/-- Claim C3 (amended): when the agent is Idle, the payload flag is
true, and the distance to the waypoint at the current index is below 10,
the tick fires the sequencer's advance exactly once (one planned-path
increment, index stepped with wrap, drone set moving).  In the scenario
with delivery list `[(0,0), (100,0)]` and the agent starting at index 0
carrying cargo, only the first tick auto-advances (0 to 1); arrival at
`(100, 0)` clears the payload flag in the motion integrator, so no
further auto-advance fires: the index stays 1, the completed-delivery
count stays 0, and the payload flag stays false. -/
theorem auto_advance_behavior :
    (∀ e : Env, e.is_paused = false → e.drone.is_moving = false →
      e.drone.carrying_package = true →
      Real.sqrt ((e.drone.x - (e.delivery_points.getD e.current_delivery (0, 0)).1) ^ 2 +
        (e.drone.y - (e.delivery_points.getD e.current_delivery (0, 0)).2) ^ 2) < 10 →
      (Env.update e).metrics.paths_planned = e.metrics.paths_planned + 1 ∧
      (Env.update e).current_delivery =
        (if e.current_delivery < e.delivery_points.length - 1
          then e.current_delivery + 1 else 0) ∧
      (Env.update e).drone.is_moving = true) ∧
    (movingState 0 (Env.update scenarioEnv) ∧
     (Env.update^[36] scenarioEnv).current_delivery = 1 ∧
     (Env.update^[36] scenarioEnv).metrics.successful_deliveries = 0 ∧
     (Env.update^[36] scenarioEnv).drone.carrying_package = false) := by
  constructor
  · intro e hp hm hc hd
    rw [Env.update_advance e hp hm hc hd, Env.next_delivery_eq]
    refine ⟨?_, ?_, rfl⟩
    · show (Metrics.afterClip e.metrics e.tickDrone).paths_planned + 1 =
        e.metrics.paths_planned + 1
      rw [Metrics.afterClip_planned]
    · show e.preAdvance.nextIdx =
        (if e.current_delivery < e.delivery_points.length - 1
          then e.current_delivery + 1 else 0)
      rfl
  · obtain ⟨hp, hx, hy, hm, hc, hcur, hdel⟩ := scenario_after_arrival
    obtain ⟨_, hx2, hy2, hm2, hc2, hcur2, hdel2⟩ :=
      idle_step_facts (Env.update^[35] scenarioEnv) hp hm hc
    have h36 : Env.update^[36] scenarioEnv = Env.update (Env.update^[35] scenarioEnv) := by
      rw [show (36:ℕ) = 35 + 1 from rfl, Function.iterate_succ_apply']
    rw [h36]
    exact ⟨scenario_first_tick, by rw [hcur2, hcur], by rw [hdel2, hdel], hc2⟩

/-- Witness for claim C3: the obstacle-free environment starts idle at
its depot waypoint carrying a package, so its first tick counts one
planned path and sets the drone moving. -/
theorem auto_advance_behavior_witness :
    (Env.update envFree).metrics.paths_planned = envFree.metrics.paths_planned + 1 ∧
    (Env.update envFree).drone.is_moving = true := by
  have hd : Real.sqrt
      ((envFree.drone.x -
        (envFree.delivery_points.getD envFree.current_delivery (0, 0)).1) ^ 2 +
       (envFree.drone.y -
        (envFree.delivery_points.getD envFree.current_delivery (0, 0)).2) ^ 2) < 10 := by
    norm_num [envFree, Env.init, Drone.init, Real.sqrt_zero]
  have h := auto_advance_behavior.1 envFree rfl rfl rfl hd
  exact ⟨h.1, h.2.2⟩
